import Mathlib

/-
Verification of the Crowdin client (src/crowdin_client.cpp) against its
specification.  The C++ code is shallowly embedded: each relevant function
is translated into an executable Lean definition, keeping the source's
names where Lean allows it.  External collaborators (the nlohmann JSON
parser, the keychain, the HTTP transport) are modelled as parameters or as
explicit fields of a client-state record, exactly at the granularity the
claims need.
-/

namespace Crowdin

/-- Sentinel for an absent directory/branch id (`enum { NO_ID = -1 }` in
`CrowdinClient::GetProjectInfo`). -/
def NO_ID : Int := -1

/-! ### JSON values, as far as the claims need them

`publicDownloads` can be `null`, `true`, `false` (or, in principle, any
other JSON value); a project record may also lack the field entirely,
which we model with an outer `Option`. -/

/-- A JSON value, restricted to the shapes the claims inspect. -/
inductive JVal where
  | null
  | bool (b : Bool)
  | num (n : Int)
  | str (s : String)
deriving DecidableEq

/-- `json::is_null()`. -/
def JVal.isNull : JVal → Bool
  | JVal.null => true
  | _ => false

/-- One element of the `projects?limit=500` response's `data` array
(already unwrapped to the inner `"data"` object): the fields
`GetUserProjects` reads.  `publicDownloads = none` models the field being
absent from the JSON object (`find` returning `end`). -/
structure ProjRec where
  name : String
  id : Int
  publicDownloads : Option JVal
deriving DecidableEq

/-- `CrowdinClient::ProjectListing`, as filled by `GetUserProjects`. -/
structure ProjectListing where
  name : String
  id : Int
deriving DecidableEq

/-- The loop-body condition of `CrowdinClient::GetUserProjects`: the
project is kept iff `i.find("publicDownloads")` found the key and the
value is not `null`. -/
def includeProject (r : ProjRec) : Bool :=
  match r.publicDownloads with
  | some v => !v.isNull
  | none => false

/-- The pure core of `CrowdinClient::GetUserProjects`: filter the parsed
records by `includeProject` and keep `{name, id}` of each survivor, in
order. -/
def GetUserProjects (rs : List ProjRec) : List ProjectListing :=
  (rs.filter includeProject).map (fun r => ProjectListing.mk r.name r.id)

/-! ### Download: the export-build request body -/

/-- ASCII lower-casing of a string (`wxString::MakeLower` on the
extension; extensions are ASCII). -/
def strLower (s : String) : String := String.mk (s.data.map Char.toLower)

/-- The JSON body posted by `CrowdinClient::DownloadFile` to
`projects/{id}/translations/builds/files/{fileId}`. -/
structure BuildRequest where
  targetLanguageId : String
  exportAsXliff : Bool
deriving DecidableEq

/-- The request body built by `CrowdinClient::DownloadFile`:
`exportAsXliff = !(ext == "xliff" || ext == "po")` after lower-casing the
extension. -/
def DownloadFileRequest (langTag : String) (file_extension : String) : BuildRequest :=
  BuildRequest.mk langTag (!(strLower file_extension == "xliff" || strLower file_extension == "po"))

/-- Case-insensitive string equality, the spec-side notion used to state
the `exportAsXliff` claim. -/
def eqCaseInsensitive (a b : String) : Bool := strLower a == strLower b

/-! ### Project tree resolution (`CrowdinClient::GetProjectInfo`)

Stage 2 fills `prj->files`; stage 3 fetches directories, builds a
`std::map<int, dir>` and walks each file's ancestor chain; stage 4 fetches
branches into a `std::map<int, std::string>` and prepends the branch name.
`std::map::operator[]`, used by both walks, default-inserts a
value-initialized entry when the key is absent, so the maps are threaded
through the model explicitly. -/

/-- `struct dir { std::string name; int parentId; };` of stage 3. -/
structure DirEntry where
  name : String
  parentId : Int
deriving DecidableEq

/-- The value `std::map<int, dir>::operator[]` materialises for an absent
key: value-initialization gives an empty name and `parentId = 0`
(not `NO_ID`). -/
def dirDefault : DirEntry := DirEntry.mk "" 0

/-- The `std::map<int, dir>` of stage 3, as an association list (keys
unique, insertion at the end). -/
def DirMap := List (Int × DirEntry)

/-- Pure lookup (`std::map::find`). -/
def lookupDir : List (Int × DirEntry) → Int → Option DirEntry
  | [], _ => none
  | (k, d) :: rest, key => if k = key then some d else lookupDir rest key

/-- `dirs[dirId]` — `std::map::operator[]`: return the mapped entry,
default-inserting `dirDefault` when the key is absent. -/
def dirIndex (m : List (Int × DirEntry)) (k : Int) : DirEntry × List (Int × DirEntry) :=
  match lookupDir m k with
  | some d => (d, m)
  | none => (dirDefault, m ++ [(k, dirDefault)])

/-- The `while(dirId != NO_ID)` ancestor walk of stage 3, with explicit
fuel since the C++ loop has no a-priori bound.  Returns the pushed names
in push order (leaf first, root last) together with the possibly-grown
map, or `none` when the fuel runs out before `dirId` reaches `NO_ID`. -/
def walkDirs : Nat → Int → List (Int × DirEntry) → Option (List String × List (Int × DirEntry))
  | 0, dirId, m => if dirId = NO_ID then some ([], m) else none
  | fuel + 1, dirId, m =>
    if dirId = NO_ID then some ([], m)
    else
      let p := dirIndex m dirId
      match walkDirs fuel p.1.parentId p.2 with
      | some (names, m2) => some (p.1.name :: names, m2)
      | none => none

/-- The `while(path.size())` pop loop of stage 3: the stack is popped
root-first, each segment preceded by `'/'`.  Applied below to the reversed
walk output (stack pop order reverses push order). -/
def joinSlash : List String → String
  | [] => ""
  | n :: rest => "/" ++ n ++ joinSlash rest

/-- `CrowdinClient::ProjectFile` as used by `GetProjectInfo`: `pathName`
starts as `"/" + name` (stage 2) and is progressively prefixed. -/
structure PFile where
  pathName : String
  id : Int
  dirId : Int
  branchId : Int
deriving DecidableEq

/-- Stage 2's construction of one `ProjectFile` from a files-listing
record: path `"/" + name`, with a `null` directory/branch id mapped to
`NO_ID`. -/
def mkProjectFile (name : String) (id : Int) (dir branch : Option Int) : PFile :=
  PFile.mk ("/" ++ name) id (dir.getD NO_ID) (branch.getD NO_ID)

/-- Stage 3, per file: walk the ancestor chain, join the names, and
prepend the result to `pathName` when non-empty (`if(!pathStr.empty())`).
`none` when the walk exhausts its fuel. -/
def stage3File (fuel : Nat) (f : PFile) (m : List (Int × DirEntry)) :
    Option (PFile × List (Int × DirEntry)) :=
  match walkDirs fuel f.dirId m with
  | none => none
  | some (names, m2) =>
    let pathStr := joinSlash names.reverse
    some (if pathStr = "" then f else
      PFile.mk (pathStr ++ f.pathName) f.id f.dirId f.branchId, m2)

/-- The `std::map<int, std::string>` of stage 4. -/
def BranchMap := List (Int × String)

/-- Pure lookup in the branch map. -/
def lookupBranch : List (Int × String) → Int → Option String
  | [], _ => none
  | (k, s) :: rest, key => if k = key then some s else lookupBranch rest key

/-- `branches[i.branchId]` — `std::map::operator[]`: default-inserts the
empty string when the branch id is absent. -/
def branchIndex (m : List (Int × String)) (k : Int) : String × List (Int × String) :=
  match lookupBranch m k with
  | some s => (s, m)
  | none => ("", m ++ [(k, "")])

/-- Stage 4, per file: `if(i.branchId != NO_ID) i.pathName = "/" +
branches[i.branchId] + i.pathName;`. -/
def stage4File (f : PFile) (m : List (Int × String)) : PFile × List (Int × String) :=
  if f.branchId = NO_ID then (f, m)
  else
    let p := branchIndex m f.branchId
    (PFile.mk ("/" ++ p.1 ++ f.pathName) f.id f.dirId f.branchId, p.2)

/-! ### Token manager and OAuth flow

The client's mutable state, as far as the claims observe it: the bound API
transport (`m_api`: base url and authorization header), the credential
persisted in the keychain (`keytar`), and whether an authentication
request is pending (`m_authCallback` non-null).  JSON parsing of the token
payload is the external nlohmann collaborator; it is modelled as a
parameter `parse` that returns the (string) `domain` field when the input
parses as JSON and has one, and `none` on any parse failure or missing
field — i.e. exactly when the C++ `try` block throws. -/

/-- The transport handle `m_api` (a `crowdin_http_client`): its base URL
prefix and its authorization header. -/
structure ApiHandle where
  base : String
  auth : String
deriving DecidableEq

/-- Observable client state: `m_api`, the keychain slot for service
`"Crowdin"`, and whether `m_authCallback` holds a pending promise. -/
structure ClientState where
  api : Option ApiHandle
  savedToken : Option String
  pendingAuth : Bool
deriving DecidableEq

/-- The base64 alphabet table `b` of `base64_decode_json_part`. -/
def b64Chars : List Char :=
  "ABCDEFGHIJKLMNOPQRSTUVWXYZabcdefghijklmnopqrstuvwxyz0123456789+/".data

/-- `t[c]`: index of `c` in the table, `none` for `-1`. -/
def b64Val (c : Char) : Option Nat := b64Chars.findIdx? (fun x => x == c)

/-- The decode loop of `base64_decode_json_part`: `val` accumulates six
bits per character (`val = (val << 6) + t[c]`), `valb` counts available
bits minus eight; a byte `(val >> valb) & 0xFF` is emitted whenever
`valb >= 0`; the loop breaks at the first character outside the table.
`val` is kept as an unbounded `Nat`: the emitted byte depends only on the
low `valb + 8 <= 12` bits, so C++ `int` wraparound cannot change it. -/
def b64Go : List Char → Nat → Int → List Char
  | [], _, _ => []
  | c :: rest, val, valb =>
    match b64Val c with
    | none => []
    | some t =>
      let val2 := val * 64 + t
      let valb2 := valb + 6
      if 0 ≤ valb2 then
        Char.ofNat ((val2 >>> valb2.toNat) % 256) :: b64Go rest val2 (valb2 - 8)
      else
        b64Go rest val2 valb2

/-- `base64_decode_json_part` (crowdin_client.cpp): decode the longest
table-alphabet run of `in`, starting with `val = 0`, `valb = -8`. -/
def base64_decode_json_part (s : String) : String := String.mk (b64Go s.data 0 (-8))

/-- `wxString::AfterFirst(ch)`: everything after the first occurrence of
`ch`, or the empty string when `ch` does not occur. -/
def afterFirstChar (ch : Char) : List Char → List Char
  | [] => []
  | c :: rest => if c = ch then rest else afterFirstChar ch rest

/-- `wxString::BeforeFirst(ch)`: everything before the first occurrence of
`ch`, or the whole string when `ch` does not occur. -/
def beforeFirstChar (ch : Char) (l : List Char) : List Char :=
  l.takeWhile (fun c => c ≠ ch)

/-- `wxString(token).AfterFirst('.').BeforeFirst('.')`: the middle
dot-separated segment of the token. -/
def middleSegment (token : String) : String :=
  String.mk (beforeFirstChar '.' (afterFirstChar '.' token.data))

/-- The domain prefix computed inside `CrowdinClient::SetToken`'s `try`
block: the parsed `domain` field with `"."` appended, or `""` when
decoding/parsing fails (the `catch(...)` path). -/
def domainPart (parse : String → Option String) (token : String) : String :=
  match parse (base64_decode_json_part (middleSegment token)) with
  | some d => d ++ "."
  | none => ""

/-- `CrowdinClient::SetToken`: no-op on an empty token; otherwise rebind
`m_api` to `https://` + domain-part + `crowdin.com/api/v2` with
authorization `"Bearer " + token`. -/
def SetToken (parse : String → Option String) (token : String) (st : ClientState) : ClientState :=
  if token = "" then st
  else
    ClientState.mk
      (some (ApiHandle.mk ("https://" ++ domainPart parse token ++ "crowdin.com/api/v2")
        ("Bearer " ++ token)))
      st.savedToken st.pendingAuth

/-- `CrowdinClient::SaveAndSetToken`: `SetToken`, then
`keytar::AddPassword("Crowdin", "", token)`. -/
def SaveAndSetToken (parse : String → Option String) (token : String) (st : ClientState) :
    ClientState :=
  let st1 := SetToken parse token st
  ClientState.mk st1.api (some token) st1.pendingAuth

/-- `CrowdinClient::SignOut`: clear `m_api`'s authorization header and
delete the persisted credential. -/
def SignOut (st : ClientState) : ClientState :=
  ClientState.mk (st.api.map (fun a => ApiHandle.mk a.base "")) none st.pendingAuth

/-- `CrowdinClient::IsSignedIn`: true iff the keychain holds a value. -/
def IsSignedIn (st : ClientState) : Bool := st.savedToken.isSome

/-- The localized message substituted on a 401 response. -/
def notAuthorizedMessage : String := "Not authorized, please sign in again."

/-- `crowdin_http_client::on_error_response`: on status 401 replace the
message and `SignOut`; every other status leaves message and state
untouched.  Returns the message the caller sees together with the state
it sees it in. -/
def on_error_response (statusCode : Int) (message : String) (st : ClientState) :
    String × ClientState :=
  if statusCode = 401 then (notAuthorizedMessage, SignOut st) else (message, st)

/-- The fixed anti-forgery `state` value (`OAUTH_STATE` macro). -/
def OAUTH_STATE : String := "948cf13ffffb47119d6cfa2b68898f67"

/-- `regex_search(uri, m, regex(key + "([^&]+)"))`, specialised to the two
literal-key patterns the callback handler uses: find the leftmost position
where the key occurs followed by at least one non-`'&'` character, and
capture the maximal such run (greedy `+`). -/
def capAfter (key : List Char) : List Char → Option (List Char)
  | [] => none
  | c :: rest =>
    if key.isPrefixOf (c :: rest) then
      let cap := ((c :: rest).drop key.length).takeWhile (fun ch => ch ≠ '&')
      if cap = [] then capAfter key rest else some cap
    else capAfter key rest

/-- Extraction of a `key=value` parameter from the raw callback URI. -/
def extractParam (key : String) (uri : String) : Option String :=
  (capAfter key.data uri.data).map String.mk

/-- `CrowdinClient::HandleOAuthCallback`: extract `state`, compare against
`OAUTH_STATE`, extract `access_token`, check for a pending request, and
only then `SaveAndSetToken`, resolve the promise (the returned `Bool`) and
reset it.  Every early return leaves the state untouched. -/
def HandleOAuthCallback (parse : String → Option String) (uri : String) (st : ClientState) :
    ClientState × Bool :=
  match extractParam "state=" uri with
  | none => (st, false)
  | some s =>
    if s = OAUTH_STATE then
      match extractParam "access_token=" uri with
      | none => (st, false)
      | some tok =>
        if st.pendingAuth then
          let st1 := SaveAndSetToken parse tok st
          (ClientState.mk st1.api st1.savedToken false, true)
        else (st, false)
    else (st, false)

/-! ## Theorems -/

/-- C3: a project summary whose `publicDownloads` field is `null` is
excluded from the `GetUserProjects` result, and one whose field is `true`
or `false` is included (contributing its `{name, id}` listing in place). -/
theorem GetUserProjects_null_tri_state (r : ProjRec) (rs : List ProjRec) :
    (r.publicDownloads = some JVal.null →
      GetUserProjects (r :: rs) = GetUserProjects rs) ∧
    (∀ b, r.publicDownloads = some (JVal.bool b) →
      GetUserProjects (r :: rs) = ProjectListing.mk r.name r.id :: GetUserProjects rs) := by
  constructor
  · intro h
    simp [GetUserProjects, includeProject, h, JVal.isNull]
  · intro b h
    simp [GetUserProjects, includeProject, h, JVal.isNull]

/-- Witness for C3: a `null` project is dropped, a `true` project is kept. -/
theorem GetUserProjects_null_tri_state_witness :
    GetUserProjects [ProjRec.mk "P1" 1 (some JVal.null)] = [] ∧
    GetUserProjects [ProjRec.mk "P2" 2 (some (JVal.bool true))] = [ProjectListing.mk "P2" 2] := by
  constructor
  · exact ((GetUserProjects_null_tri_state (ProjRec.mk "P1" 1 (some JVal.null)) []).1 rfl).trans rfl
  · exact ((GetUserProjects_null_tri_state (ProjRec.mk "P2" 2 (some (JVal.bool true))) []).2
      true rfl).trans rfl

/-- C9: a project summary that lacks the `publicDownloads` field entirely
is excluded from the `GetUserProjects` result, the same as a `null`
field. -/
theorem GetUserProjects_absent_field_excluded (r : ProjRec) (rs : List ProjRec)
    (h : r.publicDownloads = none) :
    GetUserProjects (r :: rs) = GetUserProjects rs := by
  simp [GetUserProjects, includeProject, h]

/-- Witness for C9: a record without the field is dropped. -/
theorem GetUserProjects_absent_field_excluded_witness :
    GetUserProjects [ProjRec.mk "P" 3 none] = [] :=
  (GetUserProjects_absent_field_excluded (ProjRec.mk "P" 3 none) [] rfl).trans rfl

/-- C4: the export-build request body of `DownloadFile` has
`exportAsXliff = false` exactly when the file extension equals `"xliff"`
or `"po"` case-insensitively, and `true` for every other extension. -/
theorem DownloadFile_exportAsXliff_iff (langTag ext : String) :
    (DownloadFileRequest langTag ext).exportAsXliff = false ↔
      (eqCaseInsensitive ext "xliff" = true ∨ eqCaseInsensitive ext "po" = true) := by
  have h1 : strLower "xliff" = "xliff" := rfl
  have h2 : strLower "po" = "po" := rfl
  simp [DownloadFileRequest, eqCaseInsensitive, h1, h2]
  tauto

/-- C8: a 401 status replaces the message with the localized
"not authorized" text and signs out — the caller observes the error with
the credential already deleted (`IsSignedIn` false), the keychain slot
cleared, and the transport's authorization header emptied; any other
status leaves both message and state untouched. -/
theorem on_error_response_401_signout (statusCode : Int) (message : String) (st : ClientState) :
    (statusCode = 401 →
      on_error_response statusCode message st = (notAuthorizedMessage, SignOut st) ∧
      IsSignedIn (SignOut st) = false ∧
      (SignOut st).savedToken = none ∧
      (SignOut st).api = st.api.map (fun a => ApiHandle.mk a.base "")) ∧
    (statusCode ≠ 401 →
      on_error_response statusCode message st = (message, st)) := by
  constructor
  · intro h
    simp [on_error_response, h, SignOut, IsSignedIn]
  · intro h
    simp [on_error_response, h]

/-- Witness for C8: a 401 at a signed-in state signs out; a 404 changes
nothing. -/
theorem on_error_response_401_signout_witness :
    (on_error_response 401 "err" (ClientState.mk (some (ApiHandle.mk "b" "Bearer t")) (some "t") false)
        = (notAuthorizedMessage,
           SignOut (ClientState.mk (some (ApiHandle.mk "b" "Bearer t")) (some "t") false)) ∧
      IsSignedIn (SignOut (ClientState.mk (some (ApiHandle.mk "b" "Bearer t")) (some "t") false))
        = false) ∧
    on_error_response 404 "err" (ClientState.mk (some (ApiHandle.mk "b" "Bearer t")) (some "t") false)
      = ("err", ClientState.mk (some (ApiHandle.mk "b" "Bearer t")) (some "t") false) := by
  refine ⟨⟨?_, ?_⟩, ?_⟩
  · exact ((on_error_response_401_signout 401 "err"
      (ClientState.mk (some (ApiHandle.mk "b" "Bearer t")) (some "t") false)).1 rfl).1
  · exact ((on_error_response_401_signout 401 "err"
      (ClientState.mk (some (ApiHandle.mk "b" "Bearer t")) (some "t") false)).1 rfl).2.1
  · exact (on_error_response_401_signout 404 "err"
      (ClientState.mk (some (ApiHandle.mk "b" "Bearer t")) (some "t") false)).2 (by decide)

/-- C5: when the `state` parameter extracted from the callback URI is
absent or differs from `OAUTH_STATE`, `HandleOAuthCallback` returns the
state unchanged and does not resolve the pending future (no token save, no
error, nothing). -/
theorem HandleOAuthCallback_state_mismatch (parse : String → Option String) (uri : String)
    (st : ClientState)
    (h : ∀ s, extractParam "state=" uri = some s → s ≠ OAUTH_STATE) :
    HandleOAuthCallback parse uri st = (st, false) := by
  unfold HandleOAuthCallback
  cases hx : extractParam "state=" uri with
  | none => rfl
  | some s =>
    have hs := h s hx
    simp [hs]

/-- Witness for C5: a callback carrying a token but the wrong state is
dropped with the client state (pending request included) untouched. -/
theorem HandleOAuthCallback_state_mismatch_witness :
    HandleOAuthCallback (fun _ => none) "poedit://auth/crowdin/#access_token=abc&state=bad"
      (ClientState.mk none none true) = (ClientState.mk none none true, false) := by
  apply HandleOAuthCallback_state_mismatch
  intro s hs
  rw [show extractParam "state=" "poedit://auth/crowdin/#access_token=abc&state=bad"
    = some "bad" from rfl] at hs
  cases hs
  decide

/-- C6: with no pending authentication request, `HandleOAuthCallback` is a
no-op for every callback URI — including a well-formed one with the
correct `state` and an `access_token` — so replaying a successful callback
after it resolved the flow changes nothing. -/
theorem HandleOAuthCallback_no_pending (parse : String → Option String) (uri : String)
    (st : ClientState) (h : st.pendingAuth = false) :
    HandleOAuthCallback parse uri st = (st, false) := by
  unfold HandleOAuthCallback
  cases extractParam "state=" uri with
  | none => rfl
  | some s =>
    by_cases hs : s = OAUTH_STATE
    · simp only [hs, if_pos rfl]
      cases extractParam "access_token=" uri with
      | none => rfl
      | some tok => simp [h]
    · simp [hs]

/-- Witness for C6: the exact successful-callback URI, replayed against a
state with no pending request, is a no-op. -/
theorem HandleOAuthCallback_no_pending_witness :
    HandleOAuthCallback (fun _ => none)
      "poedit://auth/crowdin/#state=948cf13ffffb47119d6cfa2b68898f67&access_token=tok123"
      (ClientState.mk (some (ApiHandle.mk "https://crowdin.com/api/v2" "Bearer tok123"))
        (some "tok123") false)
    = (ClientState.mk (some (ApiHandle.mk "https://crowdin.com/api/v2" "Bearer tok123"))
        (some "tok123") false, false) :=
  HandleOAuthCallback_no_pending (fun _ => none)
    "poedit://auth/crowdin/#state=948cf13ffffb47119d6cfa2b68898f67&access_token=tok123"
    (ClientState.mk (some (ApiHandle.mk "https://crowdin.com/api/v2" "Bearer tok123"))
      (some "tok123") false) rfl

/-- C10: a file whose `branchId` is not `NO_ID` but is absent from the
fetched branch table gets `"/" + ""` prefixed (the `std::map` lookup
default-inserts an empty name), so its final path starts with `"//"`, and
the branch table gains an empty-named entry for that id. -/
theorem GetProjectInfo_missing_branch_doubleslash (f : PFile) (B : List (Int × String))
    (rest : String)
    (h1 : ¬ f.branchId = NO_ID) (h2 : lookupBranch B f.branchId = none)
    (h3 : f.pathName = "/" ++ rest) :
    (stage4File f B).1.pathName = "/" ++ ("/" ++ rest) ∧
    (stage4File f B).2 = B ++ [(f.branchId, "")] := by
  simp [stage4File, h1, branchIndex, h2, h3]

/-- Witness for C10: a file on branch 9 with an empty branch table ends up
at `"//file.po"` and the table gains `(9, "")`. -/
theorem GetProjectInfo_missing_branch_doubleslash_witness :
    (stage4File (PFile.mk "/file.po" 1 NO_ID 9) []).1.pathName = "//file.po" ∧
    (stage4File (PFile.mk "/file.po" 1 NO_ID 9) []).2 = [((9 : Int), "")] := by
  have h := GetProjectInfo_missing_branch_doubleslash (PFile.mk "/file.po" 1 NO_ID 9) []
    "file.po" (by decide) rfl rfl
  exact ⟨h.1.trans rfl, h.2⟩

theorem walkDirs_zero_self_loop (fuel : Nat) :
    walkDirs fuel 0 [((5 : Int), dirDefault), (0, dirDefault)] = none := by
  induction fuel with
  | zero => simp [walkDirs, NO_ID]
  | succ n ih =>
    simp only [dirDefault] at ih
    simp [walkDirs, NO_ID, dirIndex, lookupDir, dirDefault, ih]

/-- C1: the claim says a directory id absent from the fetched set halts
the ancestor walk as if a root had been reached; the code does the
opposite.  `dirs[dirId]` (`std::map::operator[]`) default-inserts an
entry with `parentId = 0`, and id `0` is itself absent, so `dirId` becomes
`0` and stays `0` — the `while(dirId != NO_ID)` loop never exits.  At the
failing input (a file with `directoryId = 5`, empty directory table) the
fuelled model of the loop fails to terminate for every fuel bound. -/
theorem walkDirs_missing_dir_never_halts (fuel : Nat) : walkDirs fuel 5 [] = none := by
  cases fuel with
  | zero => simp [walkDirs, NO_ID]
  | succ n =>
    have h1 : walkDirs n 0 [((5 : Int), DirEntry.mk "" 0)] = none := by
      cases n with
      | zero => simp [walkDirs, NO_ID]
      | succ m =>
        have h2 := walkDirs_zero_self_loop m
        simp only [dirDefault] at h2
        simp [walkDirs, NO_ID, dirIndex, lookupDir, dirDefault, h2]
    simp [walkDirs, NO_ID, dirIndex, lookupDir, dirDefault, h1]

/-- C2: whenever the stage-3 ancestor walk of a file terminates, the
file's final resolved path is the branch segment (present only when
`branchId` is not `NO_ID`, and outermost), followed by the `"/"`-joined
ancestor directory names in root-to-leaf order (the reverse of the walk's
leaf-to-root output; empty when `directoryId` is `NO_ID`), followed by
`"/" + fileName`. -/
theorem GetProjectInfo_path_formula (fuel : Nat) (f : PFile) (D : List (Int × DirEntry))
    (B : List (Int × String)) (fileName : String) (names : List String)
    (D2 : List (Int × DirEntry)) (bn : String)
    (hpath : f.pathName = "/" ++ fileName)
    (hwalk : walkDirs fuel f.dirId D = some (names, D2))
    (hbranch : ¬ f.branchId = NO_ID → lookupBranch B f.branchId = some bn) :
    ∃ f1, stage3File fuel f D = some (f1, D2) ∧
      (stage4File f1 B).1.pathName =
        (if f.branchId = NO_ID then "" else "/" ++ bn) ++
          (joinSlash names.reverse ++ ("/" ++ fileName)) := by
  refine ⟨if joinSlash names.reverse = "" then f
    else PFile.mk (joinSlash names.reverse ++ f.pathName) f.id f.dirId f.branchId, ?_, ?_⟩
  · simp [stage3File, hwalk]
  · by_cases hp : joinSlash names.reverse = ""
    · rw [if_pos hp, hp]
      by_cases hb : f.branchId = NO_ID
      · simp [stage4File, hb, hpath, String.empty_append]
      · have hl := hbranch hb
        simp [stage4File, hb, branchIndex, hl, hpath, String.empty_append, String.append_assoc]
    · rw [if_neg hp]
      by_cases hb : f.branchId = NO_ID
      · simp [stage4File, hb, hpath, String.empty_append, String.append_assoc]
      · have hl := hbranch hb
        simp [stage4File, hb, branchIndex, hl, hpath, String.append_assoc]

/-- Witness for C2: a file named `f.po` under directory chain
`root(1) → mid(2) → leaf(3)` on branch `7 ↦ "br"` resolves to
`/br/root/mid/leaf/f.po`. -/
theorem GetProjectInfo_path_formula_witness :
    ∃ f1, stage3File 4 (PFile.mk "/f.po" 10 3 7)
        [((1 : Int), DirEntry.mk "root" NO_ID), (2, DirEntry.mk "mid" 1),
          (3, DirEntry.mk "leaf" 2)]
      = some (f1, [((1 : Int), DirEntry.mk "root" NO_ID), (2, DirEntry.mk "mid" 1),
          (3, DirEntry.mk "leaf" 2)]) ∧
      (stage4File f1 [((7 : Int), "br")]).1.pathName = "/br/root/mid/leaf/f.po" := by
  have h := GetProjectInfo_path_formula 4 (PFile.mk "/f.po" 10 3 7)
    [((1 : Int), DirEntry.mk "root" NO_ID), (2, DirEntry.mk "mid" 1), (3, DirEntry.mk "leaf" 2)]
    [((7 : Int), "br")] "f.po" ["leaf", "mid", "root"]
    [((1 : Int), DirEntry.mk "root" NO_ID), (2, DirEntry.mk "mid" 1), (3, DirEntry.mk "leaf" 2)]
    "br" rfl (by decide) (fun _ => rfl)
  obtain ⟨f1, h1, h2⟩ := h
  exact ⟨f1, h1, h2.trans (by decide)⟩

/-- C7: `SetToken` with an empty token changes nothing; with a non-empty
token it rebinds the API transport to
`https://` + domain-part + `crowdin.com/api/v2` carrying
`"Bearer " + token`, where the domain part comes from parsing the
base64-decoded middle dot-separated token segment: on any decode/parse
failure (or missing field) the domain and its trailing dot are omitted,
and on success the base is `https://{domain}.crowdin.com/api/v2`. -/
theorem SetToken_spec (parse : String → Option String) (st : ClientState) :
    SetToken parse "" st = st ∧
    ∀ token, ¬ token = "" →
      (SetToken parse token st).api =
        some (ApiHandle.mk ("https://" ++ domainPart parse token ++ "crowdin.com/api/v2")
          ("Bearer " ++ token)) ∧
      (parse (base64_decode_json_part (middleSegment token)) = none →
        "https://" ++ domainPart parse token ++ "crowdin.com/api/v2"
          = "https://crowdin.com/api/v2") ∧
      (∀ d, parse (base64_decode_json_part (middleSegment token)) = some d →
        "https://" ++ domainPart parse token ++ "crowdin.com/api/v2"
          = "https://" ++ d ++ ".crowdin.com/api/v2") := by
  refine ⟨by simp [SetToken], ?_⟩
  intro token htok
  refine ⟨by simp [SetToken, htok], ?_, ?_⟩
  · intro hn
    simp only [domainPart, hn]
    rw [String.append_empty]
    rfl
  · intro d hd
    simp only [domainPart, hd]
    rw [String.append_assoc "https://" d ".crowdin.com/api/v2"]
    rw [String.append_assoc "https://" (d ++ ".") "crowdin.com/api/v2"]
    rw [String.append_assoc d "." "crowdin.com/api/v2"]
    rfl

/-- Witness for C7: a three-part token whose middle segment base64-decodes
to a JSON object with domain `acme` rebinds the transport to
`https://acme.crowdin.com/api/v2`, and the empty token is a no-op.  The
parse parameter recognises exactly the decoded payload. -/
theorem SetToken_spec_witness :
    (SetToken (fun s => if s = "\x7b\"domain\":\"acme\"\x7d" then some "acme" else none)
        "h.eyJkb21haW4iOiJhY21lIn0.sig" (ClientState.mk none none false)).api
      = some (ApiHandle.mk "https://acme.crowdin.com/api/v2"
          "Bearer h.eyJkb21haW4iOiJhY21lIn0.sig") ∧
    SetToken (fun s => if s = "\x7b\"domain\":\"acme\"\x7d" then some "acme" else none) ""
        (ClientState.mk none none false)
      = ClientState.mk none none false := by
  constructor
  · have h := (SetToken_spec
      (fun s => if s = "\x7b\"domain\":\"acme\"\x7d" then some "acme" else none)
      (ClientState.mk none none false)).2 "h.eyJkb21haW4iOiJhY21lIn0.sig" (by decide)
    rw [h.1]
    decide
  · exact (SetToken_spec
      (fun s => if s = "\x7b\"domain\":\"acme\"\x7d" then some "acme" else none)
      (ClientState.mk none none false)).1

end Crowdin
